import Mathlib

/-!
A shallow embedding of pysat's metadata module (`pysat/_meta.py`) and the
user-settings store (`pysat/_params.py`), together with theorems about the
behaviour of the embedded operations.

Conventions of the embedding:
* Python scalar values stored in metadata cells or in the settings mapping
  are modelled by `Value`; `Value.nan` is the floating NaN, `Value.none` is
  Python's `None`.
* Python exceptions are modelled with `Except PyErr`; a function that can
  raise returns `Except PyErr α`.
* `pandas.DataFrame` is modelled by `DFrame`: an ordered row index, an
  ordered column list, and an association list of cells.  A cell whose
  (row, column) pair is never written holds NaN, as in pandas.  `.loc`
  assignment enlarges the frame on missing row or column labels, as in
  pandas (1.3 and later).
* Python dicts are association lists preserving insertion order.
-/

namespace PysatSpec

/-- A Python scalar value as stored in a metadata cell or a JSON settings
mapping: a string, an integer, a boolean, the float NaN, or `None`. -/
inductive Value where
  | str (s : String)
  | int (z : Int)
  | bool (b : Bool)
  | nan
  | none
deriving DecidableEq, Repr

/-- A raised Python exception, by class, with the message text. -/
inductive PyErr where
  | nameError (msg : String)
  | attributeError (msg : String)
  | keyError (msg : String)
  | valueError (msg : String)
  | runtimeError (msg : String)
  | typeError (msg : String)
deriving DecidableEq, Repr

/-- Python `==` on the modelled scalars.  `nan == x` is always `False`
(IEEE semantics, as numpy/pandas give); `None == None` is `True`;
`True == 1` and `False == 0` hold because Python's `bool` is an `int`
subtype; values of unrelated types compare unequal. -/
def Value.pyEq : Value → Value → Bool
  | .str a, .str b => a == b
  | .int a, .int b => a == b
  | .bool a, .bool b => a == b
  | .bool a, .int b => (if a then (1 : Int) else 0) == b
  | .int a, .bool b => a == (if b then (1 : Int) else 0)
  | .none, .none => true
  | _, _ => false

/-- `numpy.isnan` on a modelled scalar: `True` on NaN, `False` on numbers
and booleans, and a `TypeError` on strings and `None`. -/
def Value.isnanE : Value → Except PyErr Bool
  | .nan => .ok true
  | .int _ => .ok false
  | .bool _ => .ok false
  | .str _ => .error (.typeError "ufunc isnan not supported for str input")
  | .none => .error (.typeError "ufunc isnan not supported for NoneType input")

/-- `np.isnan(a) and np.isnan(b)` wrapped in `try/except TypeError` as in
`Meta.__eq__`: `true` only when both evaluate without error to `True`.
Short-circuit: when `isnan a` is ok `False`, `isnan b` is never evaluated,
and the conjunction is `False`; when either evaluated call raises, the
enclosing `except TypeError` path also yields the not-equal outcome. -/
def bothNan (a b : Value) : Bool :=
  match a.isnanE with
  | .ok true =>
    match b.isnanE with
    | .ok bb => bb
    | .error _ => false
  | .ok false => false
  | .error _ => false

/-- Look a key up in an insertion-ordered association list (a Python dict). -/
def assocFind? {α : Type} : List (String × α) → String → Option α
  | [], _ => Option.none
  | p :: t, k => if p.1 == k then some p.2 else assocFind? t k

/-- `d[k] = v` on a dict: update in place when the key exists (keys are
unique, so replacing the first occurrence is the dict update), append at
the end otherwise, preserving insertion order. -/
def assocSet {α : Type} : List (String × α) → String → α → List (String × α)
  | [], k, v => [(k, v)]
  | p :: t, k, v => if p.1 == k then (k, v) :: t else p :: assocSet t k v

/-- Remove a key from a dict (`d.pop(k)`'s effect on the mapping). -/
def assocErase {α : Type} (l : List (String × α)) (k : String) :
    List (String × α) :=
  l.filter (fun p => p.1 != k)

/-- The keys of a dict, in insertion order. -/
def assocKeys {α : Type} (l : List (String × α)) : List String :=
  l.map Prod.fst

/-- Python `str.lower` on one character, for the ASCII names the module
handles: map `A`-`Z` to `a`-`z`, leave everything else alone. -/
def charLower (c : Char) : Char :=
  if 65 ≤ c.toNat ∧ c.toNat ≤ 90 then Char.ofNat (c.toNat + 32) else c

/-- Python `str.lower` (ASCII). -/
def strLower (s : String) : String :=
  String.mk (s.toList.map charLower)

/-- Lexicographic byte-wise comparison of strings by code point, the order
Python's `sorted` gives on ASCII names. -/
def charListLe : List Char → List Char → Bool
  | [], _ => true
  | _ :: _, [] => false
  | a :: as, b :: bs =>
    if a.val < b.val then true
    else if b.val < a.val then false
    else charListLe as bs

/-- `a <= b` on strings by code point. -/
def strLeB (a b : String) : Bool :=
  charListLe a.toList b.toList

/-- Insert a string into a sorted list, keeping it sorted. -/
def insertSorted (s : String) : List String → List String
  | [] => [s]
  | t :: ts => if strLeB s t then s :: t :: ts else t :: insertSorted s ts

/-- Sort a list of strings as Python's `sorted` does (code-point order). -/
def sortStrings (l : List String) : List String :=
  l.foldr insertSorted []

/-- A `pandas.DataFrame`: ordered row labels, ordered column labels, and
the written cells.  A (row, column) pair inside the frame that was never
written holds NaN, as pandas fills missing data. -/
structure DFrame where
  index : List String
  columns : List String
  cells : List ((String × String) × Value)
deriving DecidableEq, Repr

/-- Read one cell; an unwritten cell is NaN (pandas missing data). -/
def DFrame.cell (df : DFrame) (r c : String) : Value :=
  ((df.cells.find? (fun p => p.1.1 == r && p.1.2 == c)).map Prod.snd).getD .nan

/-- `df.loc[r, c] = v`: scalar `.loc` assignment, enlarging the frame when
the row or column label is new (pandas setting-with-enlargement). -/
def DFrame.locSet (df : DFrame) (r c : String) (v : Value) : DFrame :=
  { index := if df.index.contains r then df.index else df.index ++ [r],
    columns := if df.columns.contains c then df.columns else df.columns ++ [c],
    cells :=
      if (df.cells.find? (fun p => p.1.1 == r && p.1.2 == c)).isSome then
        df.cells.map (fun p => if p.1.1 == r && p.1.2 == c then ((r, c), v) else p)
      else df.cells ++ [((r, c), v)] }

/-- `df.loc[r, cs] = vs` for a list of column labels: set the row's cells
one column at a time, enlarging on missing labels. -/
def DFrame.locSetRow (df : DFrame) (r : String) (cs : List String)
    (vs : List Value) : DFrame :=
  (cs.zip vs).foldl (fun d cv => d.locSet r cv.1 cv.2) df

/-- `df.drop(r, axis=0)`: remove a row label and its cells. -/
def DFrame.dropRow (df : DFrame) (r : String) : DFrame :=
  { index := df.index.filter (fun i => i != r),
    columns := df.columns,
    cells := df.cells.filter (fun p => p.1.1 != r) }

/-- `df.drop(c, axis=1)` / `del df[c]`: remove a column label and its
cells. -/
def DFrame.dropCol (df : DFrame) (c : String) : DFrame :=
  { index := df.index,
    columns := df.columns.filter (fun i => i != c),
    cells := df.cells.filter (fun p => p.1.2 != c) }

/-- A Python type object passed around for label value types. -/
inductive PyType where
  | str
  | float
  | int
  | other
deriving DecidableEq, Repr

/-- `issubclass(val_type, str)` for a type object `val_type`. -/
def issubclassOfStr : PyType → Bool
  | .str => true
  | _ => false

/-- `isinstance(val_type, float)` where `val_type` is a type object: a type
object is an instance of `type`, never of `float`, so this is always
`False` (for every `val_type`, including `float` itself). -/
def isinstanceOfFloat (_ : PyType) : Bool := false

/-- `isinstance(val_type, int)` where `val_type` is a type object: always
`False`, for the same reason as `isinstanceOfFloat`. -/
def isinstanceOfInt (_ : PyType) : Bool := false

/-- `MetaLabels` (`_meta.py` lines 1324-1387): `label_type` maps each label
role to its expected value type, in construction order (the ten built-in
roles, then custom keyword roles); `current` holds the instance attributes
set by `__init__`, mapping each role name to its current label string. -/
structure MetaLabels where
  label_type : List (String × PyType)
  current : List (String × String)
deriving DecidableEq, Repr

/-- `MetaLabels.__init__`: each argument is a (label string, value type)
pair for its role; `label_type` collects the types and an instance
attribute per role collects the label strings, built-in roles first and
custom keyword roles after, in order. -/
def MetaLabels.init (units name notes desc plot axis scale min_val max_val
    fill_val : String × PyType)
    (kwargs : List (String × (String × PyType))) : MetaLabels :=
  { label_type :=
      [("units", units.2), ("name", name.2), ("notes", notes.2),
       ("desc", desc.2), ("plot", plot.2), ("axis", axis.2),
       ("scale", scale.2), ("min_val", min_val.2), ("max_val", max_val.2),
       ("fill_val", fill_val.2)] ++ kwargs.map (fun p => (p.1, p.2.2)),
    current :=
      [("units", units.1), ("name", name.1), ("notes", notes.1),
       ("desc", desc.1), ("plot", plot.1), ("axis", axis.1),
       ("scale", scale.1), ("min_val", min_val.1), ("max_val", max_val.1),
       ("fill_val", fill_val.1)] ++ kwargs.map (fun p => (p.1, p.2.1)) }

/-- The labels dict `Meta.__init__` passes to `MetaLabels` by default
(`_meta.py` lines 134-141); note the plot role's label is `plot_label`
there, unlike `MetaLabels.__init__`'s own default of `plot`. -/
def metaDefaultLabels : MetaLabels :=
  MetaLabels.init ("units", .str) ("long_name", .str) ("notes", .str)
    ("desc", .str) ("plot_label", .str) ("axis", .str) ("scale", .str)
    ("value_min", .float) ("value_max", .float) ("fill", .float) []

/-- `MetaLabels.default_values_from_type` (`_meta.py` lines 1425-1452),
exactly as written: `issubclass(val_type, str)` gives `''` for the string
type, but the float and int branches test `isinstance(val_type, float)` and
`isinstance(val_type, int)` on the type object itself, which is never an
instance of either, so both branches are dead and every non-string type
falls through to `None`. -/
def MetaLabels.default_values_from_type (_self : MetaLabels) (val_type : PyType) :
    Value :=
  if issubclassOfStr val_type then .str ""
  else if isinstanceOfFloat val_type then .nan
  else if isinstanceOfInt val_type then .int (-1)
  else .none

/-- `MetaLabels.default_values_from_attr` (`_meta.py` lines 1454-1487):
`ValueError` on a role missing from `label_type`, the literal `linear` for
the scale role, and otherwise the per-type default. -/
def MetaLabels.default_values_from_attr (self : MetaLabels) (attr_name : String) :
    Except PyErr Value :=
  if (assocFind? self.label_type attr_name).isNone then
    .error (.valueError "uknown label attribute")
  else if attr_name == "scale" then .ok (.str "linear")
  else .ok (self.default_values_from_type
    ((assocFind? self.label_type attr_name).getD .other))

/-- The names `dir` reports on every plain object in CPython 3.8-3.10: the
dunder attributes inherited from `object` plus `__dict__`, `__module__`
and `__weakref__` of a plain class instance. -/
def objectDirNames : List String :=
  ["__class__", "__delattr__", "__dict__", "__dir__", "__doc__", "__eq__",
   "__format__", "__ge__", "__getattribute__", "__gt__", "__hash__",
   "__init__", "__init_subclass__", "__le__", "__lt__", "__module__",
   "__ne__", "__new__", "__reduce__", "__reduce_ex__", "__repr__",
   "__setattr__", "__sizeof__", "__str__", "__subclasshook__",
   "__weakref__"]

/-- `dir(self.labels)` for a `MetaLabels` instance: the object dunders, the
class's non-dunder methods (`default_values_from_attr`,
`default_values_from_type`), and the instance attributes (`label_type` plus
one attribute per label role), deduplicated and sorted. -/
def MetaLabels.dirNames (self : MetaLabels) : List String :=
  sortStrings ((objectDirNames ++
    ["default_values_from_attr", "default_values_from_type", "label_type"] ++
    assocKeys self.label_type).eraseDups)

/-- `Meta` (`_meta.py` line 11): `data` is the pandas DataFrame of flat
metadata (`self._data`), `ho_data` the dict of higher-order (nested)
containers (`self._ho_data`), `labels` the attached `MetaLabels`.  The
instance attributes that only support `__setattr__` mechanics (`mutable`,
`_base_attr`) are modelled separately by `MetaObj` below. -/
inductive Meta where
  | mk (data : DFrame) (ho_data : List (String × Meta)) (labels : MetaLabels)

/-- `self.data` / `self._data`. -/
def Meta.data : Meta → DFrame
  | .mk d _ _ => d

/-- `self.ho_data` / `self._ho_data`. -/
def Meta.ho_data : Meta → List (String × Meta)
  | .mk _ h _ => h

/-- `self.labels`. -/
def Meta.labels : Meta → MetaLabels
  | .mk _ _ l => l

/-- `Meta.keys` (`_meta.py` lines 935-939): yields `self.data.index`. -/
def Meta.keysList (m : Meta) : List String :=
  m.data.index

/-- `Meta.keys_nD` (`_meta.py` lines 941-945): yields the keys of
`self.ho_data`. -/
def Meta.keysNDList (m : Meta) : List String :=
  assocKeys m.ho_data

/-- `Meta.__contains__` (`_meta.py` lines 534-558): case-insensitive
membership among flat variable names, then among higher-order names. -/
def Meta.containsVar (m : Meta) (other : String) : Bool :=
  m.keysList.any (fun i => strLower i == strLower other) ||
  m.keysNDList.any (fun i => strLower i == strLower other)

/-- `Meta.attrs` (`_meta.py` lines 947-951): a generator over
`self.data.columns` whose body is `yield dco`, while the loop variable is
named `dcol`; `dco` is defined nowhere, so iterating the generator raises
`NameError` as soon as the column list is nonempty, and yields nothing
(without error) when it is empty. -/
def Meta.attrs (m : Meta) : Except PyErr (List String) :=
  if m.data.columns.isEmpty then .ok []
  else .error (.nameError "name 'dco' is not defined")

/-- `Meta.var_case_name` (`_meta.py` lines 902-933): the stored casing of a
variable name when a case-insensitive match exists among flat keys (first)
or higher-order keys, else the input name unchanged. -/
def Meta.var_case_name (m : Meta) (name : String) : String :=
  if m.containsVar name then
    match m.keysList.find? (fun o => strLower o == strLower name) with
    | some o => o
    | Option.none =>
      ((m.keysNDList.find? (fun o => strLower o == strLower name)).getD name)
  else name

/-- One entry of the pandas Series `Meta.__getitem__` returns for a string
key: a cell value, or the `children` entry holding the nested container (or
`None`). -/
inductive SeriesCell where
  | v (x : Value)
  | child (c : Option Meta)

/-- The Series a string-key `Meta.__getitem__` returns: label/entry pairs
in column order, with a `children` entry. -/
abbrev Series := List (String × SeriesCell)

/-- `Meta.__getitem__` (`_meta.py` lines 438-531) for a single string key:
on a case-insensitive hit, read the row `self.data.loc[new_key]` (pandas
raises `KeyError` when the resolved name has no flat row, which happens for
a higher-order-only name) as a Series in column order, then set its
`children` entry to the nested container when the name is higher-order and
to `None` otherwise; on a miss raise `KeyError`. -/
def Meta.getitem_str (m : Meta) (key : String) : Except PyErr Series :=
  if m.containsVar key then
    let new_key := m.var_case_name key
    if m.data.index.contains new_key then
      let row : Series :=
        m.data.columns.map (fun c => (c, SeriesCell.v (m.data.cell new_key c)))
      if m.keysNDList.contains new_key then
        .ok (assocSet row "children" (.child (assocFind? m.ho_data new_key)))
      else
        .ok (assocSet row "children" (.child Option.none))
    else .error (.keyError "pandas .loc: key not in index")
  else .error (.keyError "Key not found in MetaData")

/-- `self[key].children`, as `attr_case_name` and `Meta.__eq__` evaluate
it: fetch the Series for the key through `__getitem__` and take its
`children` entry; calling anything (`.attrs()`, `.keys()`) on a `None`
child raises `AttributeError`. -/
def Meta.childFor (m : Meta) (key : String) : Except PyErr Meta := do
  let row ← m.getitem_str key
  match assocFind? row "children" with
  | some (.child (some c)) => pure c
  | some (.child Option.none) =>
    Except.error (.attributeError "NoneType object has no attribute")
  | _ => Except.error (.attributeError "children")

/-- `Meta.attr_case_name` (`_meta.py` lines 978-1013): the stored casing of
an attribute label.  It first iterates `self.attrs()` (which raises
`NameError` whenever the column list is nonempty); on no match it walks the
higher-order keys in order, iterating `self[key].children.attrs()` for each
(the row lookup inside `__getitem__` raises `KeyError` for a name with no
flat row, and a `None` child would raise `AttributeError`), returning the
first case-insensitive match, else the input name. -/
def Meta.attr_case_name (m : Meta) (name : String) : Except PyErr String := do
  let ats ← m.attrs
  match ats.find? (fun o => strLower o == strLower name) with
  | some o => pure o
  | Option.none => do
    let found ← m.keysNDList.foldlM
      (fun (acc : Option String) key => do
        match acc with
        | some o => pure (some o)
        | Option.none => do
          let c ← m.childFor key
          let cats ← c.attrs
          pure (cats.find? (fun o => strLower o == strLower name)))
      Option.none
    pure (found.getD name)


/-- `Meta._insert_default_values` (`_meta.py` lines 685-711): collect the
current label string and per-role default value for every role in
`label_type`, then `self._data.loc[data_var, labels] = default_vals`
(enlarging on labels that are not yet columns). -/
def Meta.insert_default_values (m : Meta) (data_var : String) :
    Except PyErr Meta := do
  let pairs ← m.labels.label_type.mapM (fun rp => do
    let lab ← match assocFind? m.labels.current rp.1 with
      | some l => pure l
      | Option.none => Except.error (.attributeError "getattr on MetaLabels")
    let dv ← m.labels.default_values_from_attr rp.1
    pure (lab, dv))
  pure (Meta.mk (m.data.locSetRow data_var (pairs.map Prod.fst)
    (pairs.map Prod.snd)) m.ho_data m.labels)

/-- `Meta.__setitem__` (`_meta.py` lines 293-436) for the dict branch with
a single string variable name and scalar (non-iterable, non-`Meta`,
non-`children`/`meta`) attribute values, the shape the claims exercise:
the name is wrapped into a one-element list and every dict value into a
one-element list; the name is case-resolved and, when new, seeded with a
full default row; the check `input_data.keys() == []` compares `dict_keys`
with a list and is always `False` in Python 3, so there is no early return;
the per-key length check always passes (one name, one-element value lists);
each attribute key is then case-resolved through `attr_case_name` (which
iterates the `attrs` generator); finally each scalar is stored with
`self._data.loc[name, key] = value` (a scalar is either a string or not
iterable, so the list-joining branch of lines 350-368 is not taken). -/
def Meta.setitemDict (m : Meta) (names : String)
    (input_data : List (String × Value)) : Except PyErr Meta := do
  let name := m.var_case_name names
  let m1 ← if m.containsVar name then pure m else m.insert_default_values name
  let fixed ← input_data.mapM (fun kv => do
    let nn ← m1.attr_case_name kv.1
    pure (nn, kv.2))
  pure (Meta.mk (fixed.foldl (fun d kv => d.locSet name kv.1 kv.2) m1.data)
    m1.ho_data m1.labels)

/-- `Meta.__getitem__` for a `(variable, attribute)` tuple key: resolve the
variable casing with `var_case_name` and the attribute casing with
`attr_case_name` (which iterates the broken `attrs` generator), then read
`self.data.loc[new_index, new_name]`; pandas raises `KeyError` when either
resolved label is absent. -/
def Meta.getitem2 (m : Meta) (key attr : String) : Except PyErr Value := do
  let new_index := m.var_case_name key
  let new_name ← m.attr_case_name attr
  if m.data.index.contains new_index && m.data.columns.contains new_name then
    pure (m.data.cell new_index new_name)
  else Except.error (.keyError "pandas .loc: key not in index")

/-- `Meta.copy` (`_meta.py` lines 1066-1068): `deepcopy(self)`; on the
purely-functional model a deep copy is the value itself. -/
def Meta.copy (m : Meta) : Meta := m

/-- One step of `Meta.__eq__`'s value comparison (`_meta.py` lines
613-626): the cells are equal when Python `==` says so, or else when both
are NaN (`np.isnan` on both, inside `try/except TypeError`). -/
def valuesMatch (self other_meta : Meta) (key attr : String) :
    Except PyErr Bool := do
  let v1 ← self.getitem2 key attr
  let v2 ← other_meta.getitem2 key attr
  if v1.pyEq v2 then pure true
  else pure (bothNan v1 v2)

/-- `Meta.__eq__` (`_meta.py` lines 560-680) against another `Meta`:
compare flat key lists (case-sensitively, by length and membership), then
attribute lists (materialising `self.attrs()` and `other.attrs()`, which
raises `NameError` whenever a column list is nonempty), then every
(variable, attribute) cell with NaN==NaN allowed, then the higher-order key
lists, and for each higher-order key the child containers' keys, attributes
and cells in the same way (the source re-creates the `attrs` generator per
loop turn; on the reachable paths the column lists are empty so using the
materialised lists is equivalent). -/
def Meta.eqMeta (self other_meta : Meta) : Except PyErr Bool := do
  let keys1 := self.keysList
  let keys2 := other_meta.keysList
  if keys1.length != keys2.length then return false
  if keys1.any (fun k => !(keys2.contains k)) then return false
  let attrs1 ← self.attrs
  let attrs2 ← other_meta.attrs
  if attrs1.length != attrs2.length then return false
  if attrs1.any (fun a => !(attrs2.contains a)) then return false
  let flatOk ← keys1.allM (fun key =>
    attrs1.allM (fun attr => valuesMatch self other_meta key attr))
  if !flatOk then return false
  let nd1 := self.keysNDList
  let nd2 := other_meta.keysNDList
  if nd1.length != nd2.length then return false
  if nd1.any (fun k => !(nd2.contains k)) then return false
  nd1.allM (fun key => do
    let c1 ← self.childFor key
    let c2 ← other_meta.childFor key
    let k1 := c1.keysList
    let k2 := c2.keysList
    if k1.length != k2.length then return false
    if k1.any (fun k => !(k2.contains k)) then return false
    let a1 ← c1.attrs
    let a2 ← c2.attrs
    if a1.length != a2.length then return false
    if a1.any (fun a => !(a2.contains a)) then return false
    k1.allM (fun key2 => a1.allM (fun attr => valuesMatch c1 c2 key2 attr)))

/-- `Meta.__init__` (`_meta.py` lines 134-170) with `metadata=None`: the
column list is `[mlab for mlab in dir(self.labels) if not callable(mlab)]`;
each `mlab` is a string and a string is never callable, so the filter keeps
every name `dir` reports, and the empty frame gets one column per `dir`
name -- dunders, method names, `label_type` and the role attribute names,
not the current label strings. -/
def Meta.init (labels : MetaLabels) : Meta :=
  .mk { index := [], columns := labels.dirNames, cells := [] } [] labels

/-- `Meta.__init__` with a DataFrame argument: `self._data = metadata`
as-is, then `accept_default_labels(self)` re-assigns `self.labels` to
itself (no observable change). -/
def Meta.initFromFrame (metadata : DFrame) (labels : MetaLabels) : Meta :=
  .mk metadata [] labels

/-- `pysat.Meta()`: the default-constructed container. -/
def metaDefault : Meta :=
  Meta.init metaDefaultLabels

/-- `DFrame` counterpart of `self.data.loc[:, dst] = self.data.loc[:, src]`:
create/overwrite column `dst` with column `src`'s value on every row. -/
def DFrame.copyColumn (df : DFrame) (src dst : String) : DFrame :=
  df.index.foldl (fun d r => d.locSet r dst (df.cell r src))
    { df with columns := if df.columns.contains dst then df.columns
                         else df.columns ++ [dst] }

/-- `Meta._label_setter` (`_meta.py` lines 713-777).  The first test,
`new_label not in self.attrs()`, iterates the `attrs` generator, so it
raises `NameError` whenever the column list is nonempty.  With an empty
column list `attrs` yields nothing, `new_label` is not among the (no)
attributes, `current_label in self.attrs()` is false, and line 755
evaluates `self.has_attr(current_label)`: `Meta` defines no `has_attr`
(the defined method is `hasattr_case_neutral`), so `AttributeError` is
raised.  The column-rename branch (lines 752-753) is modelled in place all
the same; its recursion `setattr(self.ho_data[key], attr_label, new_label)`
(line 772) sets a plain instance attribute on each child (`Meta` has no
property named by a label attribute), renaming nothing observable, and the
final `setattr(self, '_' + attr_label, new_label)` likewise only touches a
hidden instance attribute outside this model's state. -/
def Meta.label_setter (self : Meta) (new_label current_label attr_label : String)
    (default_type : PyType) (use_names_default : Bool) : Except PyErr Meta := do
  let ats ← self.attrs
  if !(ats.contains new_label) then
    if ats.contains current_label then
      pure (Meta.mk ((self.data.copyColumn current_label new_label).dropCol
        current_label) self.ho_data self.labels)
    else
      Except.error (.attributeError "'Meta' object has no attribute 'has_attr'")
  else
    let _ := (attr_label, default_type, use_names_default)
    pure self

/-- `Meta.concat` (`_meta.py` lines 1015-1064): copy self; under
`strict=True` raise `RuntimeError` at the first of `other`'s flat or
higher-order keys already contained (case-insensitively) in the copy; then
line 1053 evaluates `self.apply_default_labels(other)` -- `Meta` defines no
attribute `apply_default_labels` (the defined method is
`apply_meta_labels`), so every path that passes the strict checks raises
`AttributeError`, and the row/higher-order merge loops of lines 1057-1062
are unreachable. -/
def Meta.concat (self other_meta : Meta) (strict : Bool) : Except PyErr Meta :=
  let mdata := self.copy
  if strict && other_meta.keysList.any (fun key => mdata.containsVar key) then
    .error (.runtimeError
      "Duplicated keys (variable names) across Meta objects in keys().")
  else if strict && other_meta.keysNDList.any (fun key => mdata.containsVar key)
  then
    .error (.runtimeError
      "Duplicated keys (variable names) across Meta objects in keys_nD().")
  else
    .error (.attributeError
      "'Meta' object has no attribute 'apply_default_labels'")

/-- What `Meta.pop` returns: the row Series of a flat variable, or the
nested `Meta` popped from `ho_data`. -/
inductive PopOut where
  | series (s : Series)
  | meta (m : Meta)

/-- `Meta.pop` (`_meta.py` lines 1070-1098): on a case-insensitive hit,
resolve the stored casing; when the resolved name has a flat row, return
`self[new_name]` (the row Series, whose `children` entry carries the nested
container when one exists) and drop only the flat row -- any `ho_data`
entry for the name stays; otherwise pop and return the entry from
`ho_data`.  On a miss raise `KeyError`. -/
def Meta.pop (self : Meta) (label_name : String) :
    Except PyErr (PopOut × Meta) := do
  if self.containsVar label_name then
    let new_name := self.var_case_name label_name
    if self.keysList.contains new_name then do
      let output ← self.getitem_str new_name
      pure (.series output,
        Meta.mk (self.data.dropRow new_name) self.ho_data self.labels)
    else
      match assocFind? self.ho_data new_name with
      | some child =>
        pure (.meta child,
          Meta.mk self.data (assocErase self.ho_data new_name) self.labels)
      | Option.none =>
        -- unreachable: a contained name without a flat row has an nD entry
        Except.error (.keyError "ho_data pop: key absent")
  else Except.error (.keyError "Key not present in metadata variables")

/-- `pandas.read_csv(filename, names=col_names, sep=sep)` on parsed file
content: passing explicit `names` leaves the default `header=None`, so
every line of the file -- a header line included -- is parsed as a data
row; each row's fields map positionally onto `col_names` (a missing
trailing field would be NaN; the modelled rows are rectangular), the row
labels are the default integer range rendered here as decimal strings, and
every modelled field is kept as a string (`read_csv`'s numeric dtype
inference is outside the model; the claims' fields are non-numeric). -/
def csvFrame (rows : List (List String)) (cols : List String) : DFrame :=
  let tags := (List.range rows.length).map (fun i => toString i)
  { index := tags,
    columns := cols,
    cells := (tags.zip rows).flatMap (fun rv =>
      (cols.zip rv.2).map (fun cv => ((rv.1, cv.1), Value.str cv.2))) }

/-- `mdata.index = mdata['name']` for `col = "name"`: re-key every row by
that column's (string) cell value; the column itself stays until deleted. -/
def DFrame.setIndexFromCol (df : DFrame) (col : String) : DFrame :=
  let nameOf := fun r => match df.cell r col with
    | Value.str s => s
    | _ => ""
  { index := df.index.map nameOf,
    columns := df.columns,
    cells := df.cells.map (fun p => ((nameOf p.1.1, p.1.2), p.2)) }

/-- `Meta.from_csv` (`_meta.py` lines 1161-1219) on the parsed content of
the resolved file (`rows`; the filename/path resolution of lines 1192-1208
is file-system work outside the model): `col_names` defaults to
`['name', 'long_name', 'units']` and must include those three; the file is
read with explicit `names` (so a header line becomes a data row, see
`csvFrame`); a nonempty frame is re-indexed by its `name` column, that
column is deleted, and the result is wrapped as `cls(metadata=mdata)` with
the default labels; an empty frame raises `ValueError`. -/
def Meta.from_csv (rows : List (List String))
    (col_names : Option (List String)) : Except PyErr Meta := do
  let req := ["name", "long_name", "units"]
  let cols ← match col_names with
    | Option.none => pure req
    | Option.some cs =>
      if req.all (fun r => cs.contains r) then pure cs
      else Except.error (.valueError "col_names must include name, long_name, units.")
  let mdata := csvFrame rows cols
  if !mdata.index.isEmpty then
    pure (Meta.initFromFrame ((mdata.setIndexFromCol "name").dropCol "name")
      metaDefaultLabels)
  else
    Except.error (.valueError "Unable to retrieve information from filename")

/-- `Parameters` (`_params.py` lines 16-61): the in-memory settings mapping
and the resolved settings-file path.  (`defaults`/`non_defaults` play no
part in the claims modelled here.) -/
structure Parameters where
  data : List (String × Value)
  file_path : String
deriving DecidableEq, Repr

/-- The one file write `Parameters.__setitem__` performs, as a trace event:
the lock timeout passed to `Lock(self.file_path, 'w', self['file_timeout'])`
(the third positional argument of `portalocker.Lock` is `timeout`), whether
the lock is exclusive (mode `'w'` with portalocker's default exclusive
flag), the full content serialised by `json.dump(self.data, fout)` into the
truncated file, and whether `fout.flush(); os.fsync(fout.fileno())` ran
before the `with` block released the lock. -/
structure FileWriteEvent where
  timeout : Value
  lockExclusive : Bool
  content : List (String × Value)
  flushedBeforeRelease : Bool
deriving DecidableEq, Repr

/-- The updated `self.data` after `Parameters.__setitem__`'s first half:
the `'data_dir'` key stores the value resolved by the external
`pysat.utils.set_data_dir`/`pysat.data_dir` (supplied as
`resolvedDataDir`); every other key stores the assigned value directly. -/
def Parameters.updatedData (self : Parameters) (key : String) (value : Value)
    (resolvedDataDir : Value) : List (String × Value) :=
  if key == "data_dir" then assocSet self.data "data_dir" resolvedDataDir
  else assocSet self.data key value

/-- `Parameters.__setitem__` (`_params.py` lines 200-215): update the
in-memory mapping, then open `Lock(self.file_path, 'w',
self['file_timeout'])` -- `__getitem__` is `self.data[item]`, read AFTER
the update, raising `KeyError` when `file_timeout` is absent -- and inside
the lock rewrite the whole mapping with `json.dump(self.data, fout)`,
flushing and fsyncing before the block releases the lock. -/
def Parameters.setitem (self : Parameters) (key : String) (value : Value)
    (resolvedDataDir : Value) : Except PyErr (Parameters × FileWriteEvent) := do
  let newData := self.updatedData key value resolvedDataDir
  let timeout ← match assocFind? newData "file_timeout" with
    | some t => pure t
    | Option.none => Except.error (.keyError "file_timeout")
  pure ({ self with data := newData },
    { timeout := timeout, lockExclusive := true, content := newData,
      flushedBeforeRelease := true })

/-- An arbitrary Python object assigned to a `Meta` instance attribute:
a boolean (the `mutable` flag), a DataFrame (for the `data` property), a
higher-order dict (for the `ho_data` property), or a plain scalar. -/
inductive PyAttrVal where
  | bool (b : Bool)
  | frame (df : DFrame)
  | hoDict (l : List (String × DFrame))
  | val (v : Value)

/-- Python truthiness of an assigned attribute value, as `if self.mutable:`
evaluates it; `bool()` of a DataFrame raises `ValueError` in pandas. -/
def PyAttrVal.truthy : PyAttrVal → Except PyErr Bool
  | .bool b => pure b
  | .frame _ =>
    .error (.valueError "The truth value of a DataFrame is ambiguous")
  | .hoDict l => pure (!l.isEmpty)
  | .val (.str s) => pure (s != "")
  | .val (.int z) => pure (z != 0)
  | .val (.bool b) => pure b
  | .val .nan => pure true
  | .val .none => pure false

/-- The attribute-level state of a `Meta` instance that `__setattr__`
manipulates: the values of `self._data` and `self._ho_data` (as set through
the `data`/`ho_data` property setters), the `mutable` flag's stored value,
and the plain instance attributes. -/
structure MetaObj where
  dataA : PyAttrVal
  hoDataA : PyAttrVal
  mutableA : PyAttrVal
  instAttrs : List (String × PyAttrVal)

/-- `Meta.__setattr__` (`_meta.py` lines 241-291).  The name `mutable` is
always stored directly (`super().__setattr__`).  Otherwise
`getattr(self.__class__, name, None)` is a `property` exactly for `data`,
`ho_data` and `empty`; `empty` has no setter, and the error text for that
case is built with a two-argument `''.join(...)`, which raises `TypeError`
before the intended `AttributeError`; for `data`/`ho_data` the flag is
temporarily forced to `True`, the setter stores the value, and the saved
flag is restored, so the assignment succeeds regardless of mutability.
Every other name is a normal attribute: stored when `self.mutable` is
truthy, else `AttributeError` (whose text, joined without separators from
three fragments, reads `...attributes areimmutable`). -/
def MetaObj.setattr (self : MetaObj) (name : String) (value : PyAttrVal) :
    Except PyErr MetaObj := do
  if name != "mutable" then
    if name == "data" || name == "ho_data" || name == "empty" then
      if name == "empty" then
        Except.error (.typeError "join() takes exactly one argument (2 given)")
      else
        let afterFset :=
          if name == "data" then { self with dataA := value }
          else { self with hoDataA := value }
        pure { afterFset with mutableA := self.mutableA }
    else
      let isMut ← self.mutableA.truthy
      if isMut then
        pure { self with instAttrs := assocSet self.instAttrs name value }
      else
        Except.error (.attributeError
          "cannot set attribute - object's attributes areimmutable")
  else
    pure { self with mutableA := value }

/-! ## Theorems about the embedded operations -/

/-- C1.  The claimed scenario -- `set("temp", ...)` storing metadata and
`get("temp", "units")` returning it case-insensitively -- never happens:
the very first assignment on a default-constructed container raises
`NameError`, because `__setitem__`'s attribute-case fixing iterates the
`attrs` generator, whose body yields the undefined name `dco` while the
column list (nonempty from construction) forces at least one iteration. -/
theorem set_first_assignment_raises_nameError :
    metaDefault.setitemDict "temp"
      [("units", Value.str "K"), ("long_name", Value.str "Temperature")]
      = Except.error (PyErr.nameError "name 'dco' is not defined") := by
  rfl

/-- C2.  `default_values_from_type` returns `''` for the string type as
claimed, but `None` -- not NaN -- for the float type and `None` -- not
`-1` -- for the int type, because the float/int branches test
`isinstance` on a type object and are dead. -/
theorem default_values_from_type_results :
    metaDefaultLabels.default_values_from_type PyType.float = Value.none
    ∧ metaDefaultLabels.default_values_from_type PyType.int = Value.none
    ∧ metaDefaultLabels.default_values_from_type PyType.str = Value.str ""
    ∧ metaDefaultLabels.default_values_from_type PyType.other = Value.none :=
  ⟨rfl, rfl, rfl, rfl⟩

/-- C3.  Comparing a default-constructed container with its deep copy does
not return `True`: after the (passing) key comparison, `__eq__`
materialises `self.attrs()`, and the broken generator raises `NameError`
on the nonempty column list; the NaN-equality clause is never reached. -/
theorem eq_with_copy_raises_nameError :
    metaDefault.eqMeta metaDefault.copy
      = Except.error (PyErr.nameError "name 'dco' is not defined") := by
  rfl

/-- C4.  On two containers sharing a variable name up to case, `concat`
with `strict=True` raises the duplicate-key `RuntimeError` as claimed, but
with `strict=False` it does not return the merged union: it raises
`AttributeError`, because line 1053 calls `self.apply_default_labels`,
which `Meta` does not define (the defined method is `apply_meta_labels`). -/
theorem concat_strict_raises_nonstrict_crashes :
    ((Meta.initFromFrame ⟨["temp"], ["units"], [(("temp", "units"), Value.str "K")]⟩
        metaDefaultLabels).concat
      (Meta.initFromFrame ⟨["TEMP"], ["units"], [(("TEMP", "units"), Value.str "C")]⟩
        metaDefaultLabels) true
      = Except.error (PyErr.runtimeError
          "Duplicated keys (variable names) across Meta objects in keys()."))
    ∧ ((Meta.initFromFrame ⟨["temp"], ["units"], [(("temp", "units"), Value.str "K")]⟩
        metaDefaultLabels).concat
      (Meta.initFromFrame ⟨["TEMP"], ["units"], [(("TEMP", "units"), Value.str "C")]⟩
        metaDefaultLabels) false
      = Except.error (PyErr.attributeError
          "'Meta' object has no attribute 'apply_default_labels'")) :=
  ⟨rfl, rfl⟩

/-- C5.  Renaming a label never updates a column: `_label_setter` raises
`NameError` on any container whose column list is nonempty (the broken
`attrs` generator is iterated first), and even on a container with no
columns it raises `AttributeError` at `self.has_attr(...)`, a method
`Meta` does not define. -/
theorem label_setter_always_raises :
    (metaDefault.label_setter "_FillValue" "fill" "fill_val" PyType.float false
      = Except.error (PyErr.nameError "name 'dco' is not defined"))
    ∧ ((Meta.initFromFrame ⟨[], [], []⟩ metaDefaultLabels).label_setter
        "_FillValue" "fill" "fill_val" PyType.float false
      = Except.error (PyErr.attributeError
          "'Meta' object has no attribute 'has_attr'")) :=
  ⟨rfl, rfl⟩

/-- C6.  An empty default-constructed container has zero rows, but its
column set is `dir(labels)` -- it contains the attribute name
`label_type` and the role name `name`, and does not contain the current
label string `long_name`, which the registry does hold; so the column set
is not the set of current label strings. -/
theorem empty_meta_columns_are_dir_names :
    metaDefault.data.index = []
    ∧ metaDefault.data.columns.contains "label_type" = true
    ∧ metaDefault.data.columns.contains "name" = true
    ∧ metaDefault.data.columns.contains "long_name" = false
    ∧ (metaDefaultLabels.current.map Prod.snd).contains "long_name" = true
    ∧ (metaDefaultLabels.current.map Prod.snd).contains "label_type" = false :=
  ⟨rfl, rfl, rfl, rfl, rfl, rfl⟩

/-- A member of a string list matches the case-insensitive predicate the
container uses for itself. -/
theorem any_lower_self {l : List String} {x : String} (h : x ∈ l) :
    l.any (fun o => strLower o == strLower x) = true :=
  List.any_eq_true.mpr ⟨x, h, by simp⟩

/-- A flat key is contained (case-insensitively) in its own container. -/
theorem containsVar_of_mem_keys (m : Meta) {x : String} (h : x ∈ m.keysList) :
    m.containsVar x = true := by
  simp only [Meta.containsVar, Bool.or_eq_true]
  exact Or.inl (any_lower_self h)

/-- A key of an association list has a value. -/
theorem assocFind?_isSome_of_mem_keys {α : Type} :
    ∀ (l : List (String × α)) {k : String}, k ∈ assocKeys l →
      ∃ v, assocFind? l k = some v
  | [], k, h => by simp [assocKeys] at h
  | p :: t, k, h => by
    by_cases hp : (p.1 == k) = true
    · exact ⟨p.2, by simp [assocFind?, hp]⟩
    · have h2 : k ∈ assocKeys t := by
        rcases (by simpa [assocKeys] using h : k = p.1 ∨ k ∈ t.map Prod.fst)
          with h1 | h2
        · exact absurd (by simp [h1] : (p.1 == k) = true) hp
        · simpa [assocKeys] using h2
      obtain ⟨v, hv⟩ := assocFind?_isSome_of_mem_keys t h2
      exact ⟨v, by simpa [assocFind?, hp] using hv⟩

/-- `__getitem__` with a string key succeeds whenever the name (already in
stored casing) has a flat row. -/
theorem getitem_str_ok (m : Meta) (r : String) (h : r ∈ m.keysList) :
    ∃ s, m.getitem_str r = Except.ok s := by
  have hc : m.containsVar r = true := containsVar_of_mem_keys m h
  cases hfind : m.keysList.find? (fun o => strLower o == strLower r) with
  | none =>
    have hco := List.find?_eq_none.mp hfind r h
    simp at hco
  | some k =>
    have hkmem : k ∈ m.keysList := List.mem_of_find?_eq_some hfind
    have hvcn : m.var_case_name r = k := by simp [Meta.var_case_name, hc, hfind]
    have hidxm : k ∈ m.data.index := by simpa [Meta.keysList] using hkmem
    by_cases hnd : k ∈ m.keysNDList
    · refine ⟨assocSet (m.data.columns.map
        (fun c => (c, SeriesCell.v (m.data.cell k c)))) "children"
        (SeriesCell.child (assocFind? m.ho_data k)), ?_⟩
      simp [Meta.getitem_str, hc, hvcn, hidxm, hnd]
    · refine ⟨assocSet (m.data.columns.map
        (fun c => (c, SeriesCell.v (m.data.cell k c)))) "children"
        (SeriesCell.child Option.none), ?_⟩
      simp [Meta.getitem_str, hc, hvcn, hidxm, hnd]

/-- C7 counterexample.  A higher-order variable normally also has a flat
row (assignment seeds defaults first); on such a variable `pop` does NOT
remove and return the nested container: it returns the row Series (the
nested container only rides along under `children`) and removes only the
flat row, leaving the `ho_data` entry in place, so the popped name is still
contained in the container afterwards. -/
theorem pop_higher_order_returns_row_keeps_child :
    (Meta.mk ⟨["profile"], ["units"], [(("profile", "units"), Value.str "")]⟩
       [("profile", Meta.initFromFrame ⟨["density"], ["units"],
          [(("density", "units"), Value.str "per-cc")]⟩ metaDefaultLabels)]
       metaDefaultLabels).pop "profile"
    = Except.ok (PopOut.series
        [("units", SeriesCell.v (Value.str "")),
         ("children", SeriesCell.child (some (Meta.initFromFrame
            ⟨["density"], ["units"],
             [(("density", "units"), Value.str "per-cc")]⟩ metaDefaultLabels)))],
        Meta.mk ⟨[], ["units"], []⟩
          [("profile", Meta.initFromFrame ⟨["density"], ["units"],
             [(("density", "units"), Value.str "per-cc")]⟩ metaDefaultLabels)]
          metaDefaultLabels) := by
  rfl

/-- C7 (amended).  `pop(name)`: on no case-insensitive match it raises the
not-found `KeyError` (and, returning an error, changes nothing); whenever
the resolved name has a flat row -- higher-order or not -- it returns the
row Series and removes only that flat row, keeping `ho_data` intact; only
when the name exists solely as a higher-order entry does it remove and
return the nested container. -/
theorem pop_characterisation (m : Meta) (name : String) :
    (m.containsVar name = false →
      m.pop name
        = Except.error (PyErr.keyError "Key not present in metadata variables"))
    ∧ (m.keysList.contains (m.var_case_name name) = true →
        ∃ s, m.pop name = Except.ok (PopOut.series s,
          Meta.mk (m.data.dropRow (m.var_case_name name)) m.ho_data m.labels))
    ∧ (m.containsVar name = true →
        m.keysList.contains (m.var_case_name name) = false →
        ∃ c, assocFind? m.ho_data (m.var_case_name name) = some c ∧
          m.pop name = Except.ok (PopOut.meta c,
            Meta.mk m.data (assocErase m.ho_data (m.var_case_name name))
              m.labels)) := by
  refine ⟨?_, ?_, ?_⟩
  · intro h
    simp [Meta.pop, h]
  · intro h2
    have hc : m.containsVar name = true := by
      by_contra hcf
      have hcf2 : m.containsVar name = false := by simpa using hcf
      have hid : m.var_case_name name = name := by
        simp [Meta.var_case_name, hcf2]
      rw [hid] at h2
      have hmem : name ∈ m.keysList := by simpa using h2
      have := containsVar_of_mem_keys m hmem
      rw [hcf2] at this
      exact absurd this (by simp)
    have hmem : m.var_case_name name ∈ m.keysList := by simpa using h2
    obtain ⟨s, hs⟩ := getitem_str_ok m (m.var_case_name name) hmem
    exact ⟨s, by simp [Meta.pop, hc, hmem, hs, pure, Except.pure, Bind.bind,
      Except.bind]⟩
  · intro hc h2
    cases hfind : m.keysList.find? (fun o => strLower o == strLower name) with
    | some k =>
      have hvcn : m.var_case_name name = k := by
        simp [Meta.var_case_name, hc, hfind]
      have hkmem : k ∈ m.keysList := List.mem_of_find?_eq_some hfind
      rw [hvcn] at h2
      have : m.keysList.contains k = true := by simpa using hkmem
      rw [this] at h2
      exact absurd h2 (by simp)
    | none =>
      have hor : m.keysList.any (fun o => strLower o == strLower name) = true
          ∨ m.keysNDList.any (fun o => strLower o == strLower name) = true := by
        simpa [Meta.containsVar, Bool.or_eq_true] using hc
      have h2t : m.keysNDList.any (fun o => strLower o == strLower name)
          = true := by
        rcases hor with ha | hb
        · obtain ⟨x, hx, hpx⟩ := List.any_eq_true.mp ha
          exact absurd hpx (List.find?_eq_none.mp hfind x hx)
        · exact hb
      cases hfind2 : m.keysNDList.find? (fun o => strLower o == strLower name)
        with
      | none =>
        obtain ⟨x, hx, hpx⟩ := List.any_eq_true.mp h2t
        exact absurd hpx (List.find?_eq_none.mp hfind2 x hx)
      | some k2 =>
        have hvcn : m.var_case_name name = k2 := by
          simp [Meta.var_case_name, hc, hfind, hfind2]
        have hk2 : k2 ∈ m.keysNDList := List.mem_of_find?_eq_some hfind2
        obtain ⟨c, hcfind⟩ := assocFind?_isSome_of_mem_keys m.ho_data
          (by simpa [Meta.keysNDList] using hk2)
        have h2k : m.keysList.contains k2 = false := hvcn ▸ h2
        have hnm : k2 ∉ m.keysList := by simpa using h2k
        refine ⟨c, by rw [hvcn]; exact hcfind, ?_⟩
        simp [Meta.pop, hc, hvcn, hnm, hcfind, pure, Except.pure]

/-- C8 counterexample.  `from_csv` on a 3-column CSV whose first line is
the header `name,long_name,units` followed by exactly one data row yields
a container with TWO variables, not one: `read_csv` is called with
explicit `names` (default `header=None`), so the header line is parsed as
a data row and becomes a variable named `name`. -/
theorem from_csv_header_becomes_variable :
    ∃ m2, Meta.from_csv
        [["name", "long_name", "units"], ["t", "Temperature", "K"]] Option.none
      = Except.ok m2 ∧ m2.keysList = ["name", "t"] := by
  refine ⟨Meta.initFromFrame
    ⟨["name", "t"], ["long_name", "units"],
     [(("name", "long_name"), Value.str "long_name"),
      (("name", "units"), Value.str "units"),
      (("t", "long_name"), Value.str "Temperature"),
      (("t", "units"), Value.str "K")]⟩ metaDefaultLabels, ?_, ?_⟩
  · with_unfolding_all rfl
  · with_unfolding_all rfl

/-- C8 (amended).  On a 3-column CSV with header line `name,long_name,units`
and one data row `vn,ln,un`, `from_csv` succeeds and produces a container
with exactly two variables: `name` (the header row, carrying long_name
`long_name` and units `units`) and `vn`, whose `long_name` and `units`
cells hold the CSV data-row values `ln` and `un`. -/
theorem from_csv_header_plus_one_row (vn ln un : String) :
    Meta.from_csv [["name", "long_name", "units"], [vn, ln, un]] Option.none
      = Except.ok (Meta.initFromFrame
          ⟨["name", vn], ["long_name", "units"],
           [(("name", "long_name"), Value.str "long_name"),
            (("name", "units"), Value.str "units"),
            ((vn, "long_name"), Value.str ln),
            ((vn, "units"), Value.str un)]⟩ metaDefaultLabels) := by
  with_unfolding_all rfl

/-- `d[k] = v` followed by `d[k]` yields `v`. -/
theorem assocFind?_assocSet_self {α : Type} (l : List (String × α))
    (k : String) (v : α) : assocFind? (assocSet l k v) k = some v := by
  induction l with
  | nil => simp [assocSet, assocFind?]
  | cons p t ih =>
    by_cases hp : (p.1 == k) = true
    · simp [assocSet, assocFind?, hp]
    · simp [assocSet, assocFind?, hp, ih]

/-- C9.  Every settings assignment first updates the in-memory mapping and
then performs exactly one file write: the write's content is the ENTIRE
updated mapping (never a patch), the lock is exclusive with the timeout
read from the (updated) `file_timeout` setting, and the flush/fsync happen
before the lock is released.  The hypothesis is that `file_timeout` is
present, as `Parameters.__init__`'s defaults guarantee; without it the
lookup inside `__setitem__` raises `KeyError`. -/
theorem params_setitem_full_rewrite (p : Parameters) (key : String)
    (value rdd : Value)
    (ht : ∃ t, assocFind? (p.updatedData key value rdd) "file_timeout" = some t) :
    ∃ ev : FileWriteEvent,
      p.setitem key value rdd
        = Except.ok ({ p with data := p.updatedData key value rdd }, ev)
      ∧ ev.content = p.updatedData key value rdd
      ∧ assocFind? (p.updatedData key value rdd) "file_timeout" = some ev.timeout
      ∧ ev.lockExclusive = true
      ∧ ev.flushedBeforeRelease = true
      ∧ assocFind? (p.updatedData key value rdd) key
          = some (if key == "data_dir" then rdd else value) := by
  obtain ⟨t, htv⟩ := ht
  refine ⟨{ timeout := t, lockExclusive := true,
            content := p.updatedData key value rdd,
            flushedBeforeRelease := true }, ?_, rfl, htv, rfl, rfl, ?_⟩
  · simp only [Parameters.setitem, htv]
    rfl
  · unfold Parameters.updatedData
    by_cases hk : (key == "data_dir") = true
    · have hkk : key = "data_dir" := by simpa using hk
      rw [if_pos hk, if_pos hk, hkk]
      exact assocFind?_assocSet_self p.data "data_dir" rdd
    · rw [if_neg hk, if_neg hk]
      exact assocFind?_assocSet_self p.data key value

/-- C9 witness: the theorem applied to a concrete store holding
`file_timeout`, assigning `clean_level`. -/
theorem params_setitem_full_rewrite_witness :
    ∃ ev : FileWriteEvent,
      Parameters.setitem ⟨[("file_timeout", Value.int 10)], "pysat_settings.json"⟩
          "clean_level" (Value.str "clean") Value.none
        = Except.ok (⟨[("file_timeout", Value.int 10),
            ("clean_level", Value.str "clean")], "pysat_settings.json"⟩, ev)
      ∧ ev.content = [("file_timeout", Value.int 10),
          ("clean_level", Value.str "clean")]
      ∧ assocFind? [("file_timeout", Value.int 10),
          ("clean_level", Value.str "clean")] "file_timeout" = some ev.timeout
      ∧ ev.lockExclusive = true
      ∧ ev.flushedBeforeRelease = true
      ∧ assocFind? [("file_timeout", Value.int 10),
          ("clean_level", Value.str "clean")] "clean_level"
          = some (Value.str "clean") :=
  params_setitem_full_rewrite
    ⟨[("file_timeout", Value.int 10)], "pysat_settings.json"⟩
    "clean_level" (Value.str "clean") Value.none ⟨Value.int 10, rfl⟩

/-- C10.  With the mutable flag stored `False`: assigning `mutable` itself
always succeeds (handled before the flag test); assigning the settable
properties `data` and `ho_data` succeeds -- the setter runs with the flag
temporarily forced and the flag is restored to `False` afterwards; and
assigning any other (non-property) instance attribute raises the
immutability `AttributeError`. -/
theorem setattr_immutable_behaviour (st : MetaObj) (v : PyAttrVal) (nm : String)
    (him : st.mutableA = PyAttrVal.bool false) :
    st.setattr "mutable" v = Except.ok { st with mutableA := v }
    ∧ st.setattr "data" v = Except.ok { st with dataA := v }
    ∧ (st.setattr "data" v).map MetaObj.mutableA
        = Except.ok (PyAttrVal.bool false)
    ∧ st.setattr "ho_data" v = Except.ok { st with hoDataA := v }
    ∧ (nm ≠ "mutable" → nm ≠ "data" → nm ≠ "ho_data" → nm ≠ "empty" →
        st.setattr nm v = Except.error (PyErr.attributeError
          "cannot set attribute - object's attributes areimmutable")) := by
  refine ⟨rfl, rfl, ?_, rfl, ?_⟩
  · have hd : st.setattr "data" v = Except.ok { st with dataA := v } := rfl
    simp [hd, Except.map, him]
  · intro h1 h2 h3 h4
    have e1 : (nm != "mutable") = true := by simp [bne_iff_ne, h1]
    have e2 : (nm == "data") = false := by simp [h2]
    have e3 : (nm == "ho_data") = false := by simp [h3]
    have e4 : (nm == "empty") = false := by simp [h4]
    simp [MetaObj.setattr, e1, e2, e3, e4, him, PyAttrVal.truthy]

/-- C10 witness: the theorem applied at a concrete immutable state, with
`plot` standing for an ordinary instance attribute. -/
theorem setattr_immutable_behaviour_witness :
    (MetaObj.mk (PyAttrVal.val Value.none) (PyAttrVal.val Value.none)
        (PyAttrVal.bool false) []).setattr "mutable" (PyAttrVal.bool true)
      = Except.ok (MetaObj.mk (PyAttrVal.val Value.none)
          (PyAttrVal.val Value.none) (PyAttrVal.bool true) [])
    ∧ (MetaObj.mk (PyAttrVal.val Value.none) (PyAttrVal.val Value.none)
        (PyAttrVal.bool false) []).setattr "data" (PyAttrVal.bool true)
      = Except.ok (MetaObj.mk (PyAttrVal.bool true) (PyAttrVal.val Value.none)
          (PyAttrVal.bool false) [])
    ∧ ((MetaObj.mk (PyAttrVal.val Value.none) (PyAttrVal.val Value.none)
        (PyAttrVal.bool false) []).setattr "data" (PyAttrVal.bool true)).map
          MetaObj.mutableA = Except.ok (PyAttrVal.bool false)
    ∧ (MetaObj.mk (PyAttrVal.val Value.none) (PyAttrVal.val Value.none)
        (PyAttrVal.bool false) []).setattr "ho_data" (PyAttrVal.bool true)
      = Except.ok (MetaObj.mk (PyAttrVal.val Value.none) (PyAttrVal.bool true)
          (PyAttrVal.bool false) [])
    ∧ ("plot" ≠ "mutable" → "plot" ≠ "data" → "plot" ≠ "ho_data" →
        "plot" ≠ "empty" →
        (MetaObj.mk (PyAttrVal.val Value.none) (PyAttrVal.val Value.none)
          (PyAttrVal.bool false) []).setattr "plot" (PyAttrVal.bool true)
          = Except.error (PyErr.attributeError
            "cannot set attribute - object's attributes areimmutable")) :=
  setattr_immutable_behaviour
    (MetaObj.mk (PyAttrVal.val Value.none) (PyAttrVal.val Value.none)
      (PyAttrVal.bool false) []) (PyAttrVal.bool true) "plot" rfl

end PysatSpec
